import Mathlib

/-!
Verification development for the Weather-Ai repository.

The AppController logic is embedded from src/App.tsx. The React component
state (useState hooks for weather, loading, error, currentLocation) becomes
an explicit record AppState; the asynchronous fetchWeatherData is split into
its synchronous prefix (fetchStart) and its completion handler
(fetchComplete), and the remote call getWeatherByLocation is an oracle
parameter. Issued network requests are returned alongside the new state so
that properties about which fetches are issued are observable.

The WeatherClient (utils/weatherApi) and the InsightEngine
(utils/aiInsights) are not present under src/; they are modelled from the
specification where a claim needs them, as marked in their doc comments.
-/

namespace WeatherAi

/-- Geographic location block of WeatherData; src/App.tsx reads name,
country, lat and lon. Coordinates are rationals. -/
structure Location where
  name : String
  country : String
  lat : ℚ
  lon : ℚ
deriving Repr, DecidableEq

/-- Current conditions block of WeatherData: temperature, condition string,
humidity and wind speed, the fields the spec's rule table consumes. -/
structure CurrentConditions where
  temperature : ℚ
  condition : String
  humidity : ℚ
  windSpeed : ℚ
deriving Repr, DecidableEq

/-- One day of forecast data. -/
structure DailyForecast where
  day : String
  high : ℚ
  low : ℚ
  condition : String
deriving Repr, DecidableEq

/-- One weather alert. -/
structure Alert where
  title : String
  severity : String
deriving Repr, DecidableEq

/-- The normalized weather payload held by the controller; spec section 3. -/
structure WeatherData where
  location : Location
  current : CurrentConditions
  forecast : List DailyForecast
  alerts : List Alert
deriving Repr, DecidableEq

/-- A location candidate from the search box, consumed by
handleLocationSelect in src/App.tsx. -/
structure LocationSuggestion where
  name : String
  country : String
  lat : ℚ
  lon : ℚ
deriving Repr, DecidableEq

/-- A derived advisory produced by the insight engine. -/
structure Insight where
  category : String
  message : String
  severity : String
deriving Repr, DecidableEq

/-- Error taxonomy of the WeatherClient, spec section 7. -/
inductive FetchError where
  | networkError
  | parseError
  | notFoundError
deriving Repr, DecidableEq

/-- The component state of App in src/App.tsx lines 13 to 16: the four
useState hooks weather, loading, error and currentLocation. -/
structure AppState where
  weather : Option WeatherData
  loading : Bool
  error : Option String
  currentLocation : String
deriving Repr, DecidableEq

/-- The initial hook values in src/App.tsx lines 13 to 16: weather null,
loading true, error null, currentLocation empty. -/
def initialState : AppState :=
  { weather := none, loading := true, error := none, currentLocation := "" }

/-- The error message set in the catch branch of fetchWeatherData,
src/App.tsx line 26. -/
def fetchErrorMessage : String := "Failed to fetch weather data. Please try again."

/-- A network request issued to getWeatherByLocation, recorded so fetch
issuance is observable. -/
structure FetchRequest where
  lat : ℚ
  lon : ℚ
deriving Repr, DecidableEq

/-- The oracle standing for getWeatherByLocation: given coordinates it
either resolves with a WeatherData or rejects with a FetchError. -/
def Api : Type := ℚ → ℚ → Except FetchError WeatherData

/-- The synchronous prefix of fetchWeatherData, src/App.tsx lines 20 to 21:
setLoading(true); setError(null). -/
def fetchStart (s : AppState) : AppState :=
  { s with loading := true, error := none }

/-- The completion of fetchWeatherData, src/App.tsx lines 22 to 30: on
success store the WeatherData and the display string; on failure set the
error message; the finally block clears loading either way. -/
def fetchComplete (s : AppState) : Except FetchError WeatherData → AppState
  | Except.ok w =>
      { s with weather := some w,
               currentLocation := w.location.name ++ ", " ++ w.location.country,
               loading := false }
  | Except.error _ =>
      { s with error := some fetchErrorMessage, loading := false }

/-- fetchWeatherData of src/App.tsx lines 18 to 31, run to completion
against the oracle api; also returns the list of requests it issued. -/
def fetchWeatherData (api : Api) (s : AppState) (lat lon : ℚ) :
    AppState × List FetchRequest :=
  (fetchComplete (fetchStart s) (api lat lon), [{ lat := lat, lon := lon }])

/-- handleLocationSelect of src/App.tsx lines 33 to 35: fetch for the
selected suggestion's coordinates. -/
def handleLocationSelect (api : Api) (s : AppState) (loc : LocationSuggestion) :
    AppState × List FetchRequest :=
  fetchWeatherData api s loc.lat loc.lon

/-- handleRefresh of src/App.tsx lines 37 to 41: if weather is held, fetch
again for its stored coordinates; otherwise do nothing. -/
def handleRefresh (api : Api) (s : AppState) : AppState × List FetchRequest :=
  match s.weather with
  | some w => fetchWeatherData api s w.location.lat w.location.lon
  | none => (s, [])

/-- Outcome of the browser geolocation interaction in requestLocation:
a position, the error callback firing, or geolocation absent from
navigator. -/
inductive GeoOutcome where
  | position (latitude longitude : ℚ)
  | geoError
  | unavailable
deriving Repr, DecidableEq

/-- The default latitude (New York) in src/App.tsx lines 52 and 57. -/
def defaultLat : ℚ := 40.7128

/-- The default longitude (New York) in src/App.tsx lines 52 and 57. -/
def defaultLon : ℚ := -74.0060

/-- requestLocation of src/App.tsx lines 43 to 59: on a position, fetch for
its coordinates; on the geolocation error callback or when geolocation is
unavailable, fall back to the fixed default coordinates. -/
def requestLocation (api : Api) (s : AppState) : GeoOutcome → AppState × List FetchRequest
  | GeoOutcome.position lat lon => fetchWeatherData api s lat lon
  | GeoOutcome.geoError => fetchWeatherData api s defaultLat defaultLon
  | GeoOutcome.unavailable => fetchWeatherData api s defaultLat defaultLon

/-- Modelled from the spec: the heat threshold of the insight rule table
(section 4.2); utils/aiInsights.ts is not under src. -/
def heatThreshold : ℚ := 35

/-- Modelled from the spec: the wind speed threshold of the insight rule
table (section 4.2); utils/aiInsights.ts is not under src. -/
def windThreshold : ℚ := 30

/-- Modelled from the spec: the humidity threshold of the discomfort rule
(section 4.2); utils/aiInsights.ts is not under src. -/
def humidityThreshold : ℚ := 80

/-- Modelled from the spec: the temperature component of the discomfort
rule, humidity above a threshold combined with temperature (section 4.2);
utils/aiInsights.ts is not under src. -/
def discomfortTemperature : ℚ := 25

/-- Modelled from the spec: the ordered rule table of the InsightEngine,
an ordered list of predicate and insight pairs evaluated independently
(sections 4.2 and 9); utils/aiInsights.ts is not under src. -/
def insightRules : List ((WeatherData → Bool) × Insight) :=
  [ (fun w => decide (heatThreshold < w.current.temperature),
      { category := "heat",
        message := "High heat expected. Stay hydrated and avoid midday sun.",
        severity := "warning" }),
    (fun w => decide (windThreshold < w.current.windSpeed),
      { category := "wind",
        message := "Strong winds expected. Secure loose outdoor objects.",
        severity := "warning" }),
    (fun w => decide (humidityThreshold < w.current.humidity)
                && decide (discomfortTemperature < w.current.temperature),
      { category := "discomfort",
        message := "High humidity combined with heat may feel uncomfortable.",
        severity := "info" }) ]

/-- Modelled from the spec: generateAIInsights, the pure InsightEngine;
all matching rules are included, in the fixed order of the rule table
(section 4.2); utils/aiInsights.ts is not under src. -/
def generateAIInsights (w : WeatherData) : List Insight :=
  (insightRules.filter (fun r => r.1 w)).map Prod.snd

/-- The three mutually exclusive renderings of App in src/App.tsx: the
loading screen (lines 95 to 104), the blocking error screen (lines 106 to
120), and the main view carrying the optional weather and the derived
insights (lines 122 to 186). -/
inductive View where
  | loadingView
  | errorView (message : String)
  | mainView (weather : Option WeatherData) (insights : List Insight)
deriving Repr, DecidableEq

/-- The render logic of App in src/App.tsx lines 95 to 186: loading wins;
then the blocking error screen exactly when an error is set and no weather
is held; otherwise the main view with insights recomputed from the held
weather. -/
def render (s : AppState) : View :=
  if s.loading then View.loadingView
  else if s.error.isSome && s.weather.isNone then
    View.errorView (s.error.getD "")
  else
    View.mainView s.weather
      (match s.weather with
       | some w => generateAIInsights w
       | none => [])

/-- An atomic state update event of the controller: the synchronous prefix
of a fetch, or a fetch resolving. -/
inductive AppEvent where
  | start
  | completion (result : Except FetchError WeatherData)

/-- Apply one event to the state. -/
def applyEvent (s : AppState) : AppEvent → AppState
  | AppEvent.start => fetchStart s
  | AppEvent.completion r => fetchComplete s r

/-- Run a sequence of events from a state. -/
def runEvents (s : AppState) (es : List AppEvent) : AppState :=
  es.foldl applyEvent s

/-- Modelled from the spec: the raw provider payload behind
fetchByCoordinates, with each consumed field possibly absent from the JSON
(section 6); utils/weatherApi.ts is not under src. -/
structure RawPayload where
  locationName : Option String
  locationCountry : Option String
  latitude : Option ℚ
  longitude : Option ℚ
  temperature : Option ℚ
  condition : Option String
  humidity : Option ℚ
  windSpeed : Option ℚ
deriving Repr, DecidableEq

/-- Modelled from the spec: the possible provider responses to a
lookup-by-coordinates call: transport failure, malformed body, provider
reports no data, or a payload (sections 4.1 and 7); utils/weatherApi.ts is
not under src. -/
inductive ProviderResponse where
  | transportFailure
  | malformedBody
  | noData
  | payload (raw : RawPayload)
deriving Repr, DecidableEq

/-- Modelled from the spec: normalization of a raw payload into
WeatherData, succeeding only when every consumed field is present, so the
result is never partially populated (sections 4.1 and 8);
utils/weatherApi.ts is not under src. -/
def normalizePayload (raw : RawPayload) : Option WeatherData :=
  raw.locationName.bind fun name =>
  raw.locationCountry.bind fun country =>
  raw.latitude.bind fun lat =>
  raw.longitude.bind fun lon =>
  raw.temperature.bind fun temp =>
  raw.condition.bind fun cond =>
  raw.humidity.bind fun hum =>
  raw.windSpeed.bind fun wind =>
  some { location := { name := name, country := country, lat := lat, lon := lon },
         current := { temperature := temp, condition := cond,
                      humidity := hum, windSpeed := wind },
         forecast := [],
         alerts := [] }

/-- Modelled from the spec: fetchByCoordinates of the WeatherClient:
a single attempt, failing with networkError on transport failure,
parseError on a malformed or incomplete body, notFoundError when the
provider reports no data, and otherwise returning the normalized
WeatherData (sections 4.1 and 7); utils/weatherApi.ts is not under src. -/
def fetchByCoordinates (provider : ℚ → ℚ → ProviderResponse) (lat lon : ℚ) :
    Except FetchError WeatherData :=
  match provider lat lon with
  | ProviderResponse.transportFailure => Except.error FetchError.networkError
  | ProviderResponse.malformedBody => Except.error FetchError.parseError
  | ProviderResponse.noData => Except.error FetchError.notFoundError
  | ProviderResponse.payload raw =>
      match normalizePayload raw with
      | some w => Except.ok w
      | none => Except.error FetchError.parseError

/-- Modelled from the spec: fetchByQuery of the WeatherClient: empty or
whitespace-only input returns an empty sequence without a network call
(sections 4.1 and 8); the second component counts network calls made;
utils/weatherApi.ts is not under src. -/
def fetchByQuery (provider : String → List LocationSuggestion) (text : String) :
    List LocationSuggestion × Nat :=
  if text.toList.all Char.isWhitespace then ([], 0)
  else (provider text, 1)

/-- A sample WeatherData used by concrete witnesses. -/
def sampleWeather : WeatherData :=
  { location := { name := "New York", country := "US",
                  lat := 40.7128, lon := -74.0060 },
    current := { temperature := 22, condition := "clear",
                 humidity := 50, windSpeed := 10 },
    forecast := [],
    alerts := [] }

/-- A ready state used by concrete witnesses: weather held, not loading,
no error. -/
def readyState : AppState :=
  { weather := some sampleWeather, loading := false, error := none,
    currentLocation := "New York, US" }

/-- A sample WeatherData above the heat threshold triggering no other rule,
used by concrete witnesses. -/
def hotWeather : WeatherData :=
  { location := { name := "Phoenix", country := "US",
                  lat := 33.4484, lon := -112.0740 },
    current := { temperature := 40, condition := "sunny",
                 humidity := 20, windSpeed := 5 },
    forecast := [],
    alerts := [] }

/-- When normalization succeeds, the latitude and longitude of the result
are exactly the values present in the raw payload. -/
theorem normalizePayload_coords (raw : RawPayload) (w : WeatherData)
    (h : normalizePayload raw = some w) :
    raw.latitude = some w.location.lat ∧ raw.longitude = some w.location.lon := by
  unfold normalizePayload at h
  simp only [Option.bind_eq_some] at h
  obtain ⟨name, hn, country, hc, la, hla, lo, hlo, t, ht, cd, hcd, hu, hhu, wi, hwi, hw⟩ := h
  cases hw
  exact ⟨hla, hlo⟩

/-- C1: If the device geolocation request fails, or geolocation is
unavailable, requestLocation issues exactly one fetch, for the fixed
default coordinates (40.7128, -74.0060), and when that fetch succeeds the
controller ends in the ready state: the WeatherData is stored, the error
field is null and loading is cleared, so the geolocation error is never
surfaced. -/
theorem c1_geolocation_failure_recovers (api : Api) (s : AppState)
    (geo : GeoOutcome)
    (hgeo : geo = GeoOutcome.geoError ∨ geo = GeoOutcome.unavailable)
    (w : WeatherData) (hapi : api 40.7128 (-74.0060) = Except.ok w) :
    (requestLocation api s geo).2 = [{ lat := 40.7128, lon := -74.0060 }] ∧
    (requestLocation api s geo).1.weather = some w ∧
    (requestLocation api s geo).1.error = none ∧
    (requestLocation api s geo).1.loading = false := by
  rcases hgeo with h | h <;> subst h <;>
    simp [requestLocation, fetchWeatherData, fetchStart, fetchComplete,
      defaultLat, defaultLon, hapi]

/-- Witness for C1: a failing geolocation with a succeeding weather fetch
ends with a null error field. -/
theorem c1_witness :
    (requestLocation (fun _ _ => Except.ok sampleWeather) initialState
      GeoOutcome.geoError).1.error = none :=
  (c1_geolocation_failure_recovers (fun _ _ => Except.ok sampleWeather)
    initialState GeoOutcome.geoError (Or.inl rfl) sampleWeather rfl).2.2.1

/-- C2: A fetch that fails while a previously fetched WeatherData is held
leaves that WeatherData unchanged, records the failure separately in the
error field, and still renders the main view with the stale data; the
blocking error screen can only ever be rendered when no weather is held. -/
theorem c2_stale_data_on_failure (api : Api) (s : AppState) (w : WeatherData)
    (lat lon : ℚ) (e : FetchError)
    (hw : s.weather = some w) (hfail : api lat lon = Except.error e) :
    (fetchWeatherData api s lat lon).1.weather = some w ∧
    (fetchWeatherData api s lat lon).1.error = some fetchErrorMessage ∧
    render (fetchWeatherData api s lat lon).1 =
      View.mainView (some w) (generateAIInsights w) ∧
    (∀ t : AppState, ∀ m : String, render t = View.errorView m → t.weather = none) := by
  refine ⟨?_, ?_, ?_, ?_⟩
  · simp [fetchWeatherData, fetchStart, fetchComplete, hfail, hw]
  · simp [fetchWeatherData, fetchStart, fetchComplete, hfail]
  · simp [fetchWeatherData, fetchStart, fetchComplete, hfail, hw, render]
  · intro t m hr
    by_cases hl : t.loading = true
    · simp [render, hl] at hr
    · by_cases hb : (t.error.isSome && t.weather.isNone) = true
      · rw [Bool.and_eq_true, Option.isNone_iff_eq_none] at hb
        exact hb.2
      · simp [render, hl, hb] at hr

/-- Witness for C2: a failing fetch over a ready state keeps the stored
sample weather. -/
theorem c2_witness :
    (fetchWeatherData (fun _ _ => Except.error FetchError.networkError)
      readyState 0 0).1.weather = some sampleWeather :=
  (c2_stale_data_on_failure (fun _ _ => Except.error FetchError.networkError)
    readyState sampleWeather 0 0 FetchError.networkError rfl rfl).1

/-- C3: A successful fetch puts the controller in the ready state: the
returned WeatherData wholly replaces any previous one, the error field is
cleared to null and the loading flag is cleared. -/
theorem c3_fetch_success_ready (api : Api) (s : AppState) (lat lon : ℚ)
    (w : WeatherData) (h : api lat lon = Except.ok w) :
    (fetchWeatherData api s lat lon).1 =
      { weather := some w, loading := false, error := none,
        currentLocation := w.location.name ++ ", " ++ w.location.country } := by
  simp [fetchWeatherData, fetchStart, fetchComplete, h]

/-- Witness for C3: a successful fetch from the initial state yields the
ready state built from the sample weather. -/
theorem c3_witness :
    (fetchWeatherData (fun _ _ => Except.ok sampleWeather) initialState 1 2).1 =
      { weather := some sampleWeather, loading := false, error := none,
        currentLocation := sampleWeather.location.name ++ ", " ++
          sampleWeather.location.country } :=
  c3_fetch_success_ready (fun _ _ => Except.ok sampleWeather) initialState 1 2
    sampleWeather rfl

/-- C4: The refresh action issues a fetch only when a WeatherData is held,
and from a state holding location X it behaves exactly as a fetch at X's
stored latitude and longitude, issuing exactly that one request, with no
coordinate drift. -/
theorem c4_refresh_exact_coordinates (api : Api) (s : AppState) :
    (∀ w : WeatherData, s.weather = some w →
        handleRefresh api s = fetchWeatherData api s w.location.lat w.location.lon ∧
        (handleRefresh api s).2 = [{ lat := w.location.lat, lon := w.location.lon }]) ∧
    (s.weather = none → (handleRefresh api s).2 = []) := by
  constructor
  · intro w hw
    constructor <;> simp [handleRefresh, hw, fetchWeatherData]
  · intro hnone
    simp [handleRefresh, hnone]

/-- Witness for C4: refreshing the ready state issues one request at the
stored coordinates of the sample weather. -/
theorem c4_witness :
    (handleRefresh (fun _ _ => Except.ok sampleWeather) readyState).2 =
      [{ lat := sampleWeather.location.lat, lon := sampleWeather.location.lon }] :=
  ((c4_refresh_exact_coordinates (fun _ _ => Except.ok sampleWeather)
    readyState).1 sampleWeather rfl).2

/-- C5: The InsightEngine is a pure, deterministic, total function of
WeatherData: identical inputs yield identical ordered sequences, every
independently matching rule contributes its insight to the output, and the
output is ordered by the fixed priority order of the rule table. -/
theorem c5_insight_engine_pure (w w' : WeatherData) (h : w = w') :
    generateAIInsights w = generateAIInsights w' ∧
    (∀ r : (WeatherData → Bool) × Insight,
        r ∈ insightRules → r.1 w = true → r.2 ∈ generateAIInsights w) ∧
    List.Sublist (generateAIInsights w) (insightRules.map Prod.snd) := by
  subst h
  refine ⟨rfl, ?_, ?_⟩
  · intro r hr hp
    exact List.mem_map_of_mem Prod.snd (List.mem_filter.mpr ⟨hr, hp⟩)
  · exact List.Sublist.map Prod.snd (List.filter_sublist insightRules)

/-- Witness for C5: the engine output at the sample weather respects the
rule table order. -/
theorem c5_witness :
    List.Sublist (generateAIInsights sampleWeather) (insightRules.map Prod.snd) :=
  (c5_insight_engine_pure sampleWeather sampleWeather rfl).2.2

/-- C6: For every valid coordinate pair, fetchByCoordinates either returns
a WeatherData whose location latitude and longitude are populated from the
provider payload, or fails with one of the three defined error kinds; it
never returns a partially populated structure. -/
theorem c6_fetch_by_coordinates_total (provider : ℚ → ℚ → ProviderResponse)
    (lat lon : ℚ) (h1 : -90 ≤ lat) (h2 : lat ≤ 90)
    (h3 : -180 ≤ lon) (h4 : lon ≤ 180) :
    (∃ w : WeatherData, fetchByCoordinates provider lat lon = Except.ok w ∧
        ∃ raw : RawPayload, provider lat lon = ProviderResponse.payload raw ∧
          raw.latitude = some w.location.lat ∧
          raw.longitude = some w.location.lon) ∨
    fetchByCoordinates provider lat lon = Except.error FetchError.networkError ∨
    fetchByCoordinates provider lat lon = Except.error FetchError.parseError ∨
    fetchByCoordinates provider lat lon = Except.error FetchError.notFoundError := by
  cases hp : provider lat lon with
  | transportFailure =>
      refine Or.inr (Or.inl ?_)
      simp [fetchByCoordinates, hp]
  | malformedBody =>
      refine Or.inr (Or.inr (Or.inl ?_))
      simp [fetchByCoordinates, hp]
  | noData =>
      refine Or.inr (Or.inr (Or.inr ?_))
      simp [fetchByCoordinates, hp]
  | payload raw =>
      cases hn : normalizePayload raw with
      | none =>
          refine Or.inr (Or.inr (Or.inl ?_))
          simp [fetchByCoordinates, hp, hn]
      | some w =>
          refine Or.inl ⟨w, ?_, raw, rfl,
            (normalizePayload_coords raw w hn).1,
            (normalizePayload_coords raw w hn).2⟩
          simp [fetchByCoordinates, hp, hn]

/-- Witness for C6: a provider that always fails at the transport level
yields the network error at the origin coordinates. -/
theorem c6_witness :
    (∃ w : WeatherData,
        fetchByCoordinates (fun _ _ => ProviderResponse.transportFailure) 0 0 =
          Except.ok w ∧
        ∃ raw : RawPayload,
          (fun _ _ => ProviderResponse.transportFailure : ℚ → ℚ → ProviderResponse) 0 0 =
            ProviderResponse.payload raw ∧
          raw.latitude = some w.location.lat ∧
          raw.longitude = some w.location.lon) ∨
    fetchByCoordinates (fun _ _ => ProviderResponse.transportFailure) 0 0 =
      Except.error FetchError.networkError ∨
    fetchByCoordinates (fun _ _ => ProviderResponse.transportFailure) 0 0 =
      Except.error FetchError.parseError ∨
    fetchByCoordinates (fun _ _ => ProviderResponse.transportFailure) 0 0 =
      Except.error FetchError.notFoundError :=
  c6_fetch_by_coordinates_total (fun _ _ => ProviderResponse.transportFailure) 0 0
    (by norm_num) (by norm_num) (by norm_num) (by norm_num)

/-- C7: For a WeatherData whose temperature is above the heat threshold and
which triggers neither the wind rule nor the discomfort rule, the insight
sequence contains exactly one heat insight: no duplicate and no omission. -/
theorem c7_single_heat_insight (w : WeatherData)
    (hheat : heatThreshold < w.current.temperature)
    (hwind : ¬ windThreshold < w.current.windSpeed)
    (hdis : ¬ (humidityThreshold < w.current.humidity ∧
               discomfortTemperature < w.current.temperature)) :
    List.countP (fun i => i.category == "heat") (generateAIInsights w) = 1 := by
  have e1 : decide (heatThreshold < w.current.temperature) = true :=
    decide_eq_true hheat
  have e2 : decide (windThreshold < w.current.windSpeed) = false :=
    decide_eq_false hwind
  have e3 : (decide (humidityThreshold < w.current.humidity)
      && decide (discomfortTemperature < w.current.temperature)) = false := by
    by_cases hh : humidityThreshold < w.current.humidity
    · have ht : ¬ discomfortTemperature < w.current.temperature :=
        fun ht => hdis ⟨hh, ht⟩
      simp [ht]
    · simp [hh]
  have hout : generateAIInsights w =
      [{ category := "heat",
         message := "High heat expected. Stay hydrated and avoid midday sun.",
         severity := "warning" }] := by
    simp [generateAIInsights, insightRules, e1, e2, e3]
  rw [hout]
  rfl

/-- Witness for C7: the hot sample weather produces exactly one heat
insight. -/
theorem c7_witness :
    List.countP (fun i => i.category == "heat") (generateAIInsights hotWeather) = 1 :=
  c7_single_heat_insight hotWeather (by norm_num [heatThreshold, hotWeather])
    (by norm_num [windThreshold, hotWeather])
    (by norm_num [humidityThreshold, hotWeather])

/-- C8: For every input string that is empty or whitespace-only, that is,
every character of which is whitespace, fetchByQuery returns the empty
sequence of suggestions and makes zero network calls. -/
theorem c8_blank_query_no_network (provider : String → List LocationSuggestion)
    (text : String) (h : text.toList.all Char.isWhitespace = true) :
    fetchByQuery provider text = ([], 0) := by
  unfold fetchByQuery
  rw [h]
  rfl

/-- Witness for C8: a whitespace-only query against a provider with
suggestions still yields no suggestions and no network call. -/
theorem c8_witness :
    fetchByQuery
      (fun _ => [{ name := "Paris", country := "FR", lat := 48.8566, lon := 2.3522 }])
      "   " = ([], 0) :=
  c8_blank_query_no_network
    (fun _ => [{ name := "Paris", country := "FR", lat := 48.8566, lon := 2.3522 }])
    "   " (by decide)

/-- C9: The synchronous prefix of every fetch sets loading and clears the
error field to null, and in every state reachable from the initial state by
fetch starts and completions, a loading controller has a null error field:
a stale error is cleared at fetch initiation, not only on success. -/
theorem c9_loading_implies_no_error :
    (∀ s : AppState, (fetchStart s).loading = true ∧ (fetchStart s).error = none) ∧
    (∀ es : List AppEvent,
        (runEvents initialState es).loading = true →
        (runEvents initialState es).error = none) := by
  have key : ∀ (es : List AppEvent) (s : AppState),
      (s.loading = true → s.error = none) →
      ((runEvents s es).loading = true → (runEvents s es).error = none) := by
    intro es
    induction es with
    | nil => intro s h; exact h
    | cons e es ih =>
        intro s h
        simp only [runEvents, List.foldl_cons]
        apply ih
        cases e with
        | start => intro _; rfl
        | completion r =>
            intro hl
            cases r <;> simp [applyEvent, fetchComplete] at hl
  exact ⟨fun _ => ⟨rfl, rfl⟩, fun es => key es initialState (fun _ => rfl)⟩

/-- Witness for C9: after one fetch start from the initial state the error
field is null. -/
theorem c9_witness :
    (runEvents initialState [AppEvent.start]).error = none :=
  c9_loading_implies_no_error.2 [AppEvent.start] rfl

/-- C10: Invoking refresh when no WeatherData is held is a no-op: no fetch
request is issued and the whole state, all four fields, is unchanged. -/
theorem c10_refresh_noop_without_data (api : Api) (s : AppState)
    (h : s.weather = none) :
    handleRefresh api s = (s, []) := by
  simp [handleRefresh, h]

/-- Witness for C10: refreshing the initial state, which holds no weather,
changes nothing and issues nothing. -/
theorem c10_witness :
    handleRefresh (fun _ _ => Except.error FetchError.networkError) initialState =
      (initialState, []) :=
  c10_refresh_noop_without_data (fun _ _ => Except.error FetchError.networkError)
    initialState rfl

end WeatherAi
